import Mathlib

/-!
# Verification of the systemnexa2 Home Assistant integration

A shallow embedding in Lean 4 of the core logic of the `systemnexa2`
integration (files `__init__.py`, `config_flow.py`, `light.py`,
`switch.py`), together with theorems settling the specification claims
about it.

Conventions of the embedding:
* Python strings are Lean `String`s; string manipulation is done on the
  underlying `List Char` (`String.data`).
* Python numbers delivered in `"state"` frames are modelled as exact
  rationals (`ℚ`); Python's `round` (banker's rounding, round half to
  even) is `pyRound` below.
* Stateful entity objects (`SN2Light`, `SN2SwitchPlug`) become record
  types; each mutating method becomes a function from the record to the
  record.  Calls to `async_write_ha_state()` (the presentation-layer
  notification) are counted in a `notify` field.
* The websocket session loop of `__init__.py` becomes a labelled step
  relation on a `SessionState`, with one state per suspension point of
  the single task that runs the loop.
-/

namespace SystemNexa2

/-- Model lists from `__init__.py`. -/
def SWITCH_MODELS : List String := ["WBR-01"]

/-- Plug model list from `__init__.py`. -/
def PLUG_MODELS : List String := ["WPR-01", "WPO-01"]

/-- Light model list from `__init__.py`. -/
def LIGHT_MODELS : List String := ["WBD-01", "WPD-01"]

/-! ## Version comparator (`config_flow.py`, `_is_version_compatible`) -/

/-- Python's `str.split(c)` on a character separator, on the underlying
character list.  `splitOnChar c l` always returns a nonempty list of
fields. -/
def splitOnChar (c : Char) : List Char → List (List Char)
  | [] => [[]]
  | x :: xs =>
    let rest := splitOnChar c xs
    if x = c then [] :: rest
    else
      match rest with
      | [] => [[x]]
      | r :: rs => (x :: r) :: rs

/-- Python's `int(part)` applied to a version component.  Returns `none`
(the `ValueError` branch) on the empty string or any non-digit
character; otherwise the denoted natural number, as an `Int` (the code
compares components with `<`/`>`, so we keep the integer type).  CPython
`int` additionally tolerates surrounding whitespace, a sign, and
underscore separators; none of those can occur in the strings the
comparator is exercised on, and the claims do not touch them. -/
def parsePyInt (cs : List Char) : Option Int :=
  if cs = [] then none
  else if cs.all (fun c => c.isDigit) then
    some (Int.ofNat (cs.foldl (fun n c => 10 * n + (c.toNat - 48)) 0))
  else none

/-- `version.split("-")[0].split("+")[0]` from `_is_version_compatible`:
strip a pre-release (`-...`) suffix, then a build-metadata (`+...`)
suffix. -/
def cleanPart (s : List Char) : List Char :=
  (splitOnChar '+' ((splitOnChar '-' s).headD [])).headD []

/-- Iterated `xs.append(0)`: the body of the padding loops of
`_is_version_compatible`, run `fuel` times. -/
def padZeros : Nat → List Int → List Int
  | 0, xs => xs
  | fuel + 1, xs => padZeros fuel (xs ++ [0])

/-- The `while len(xs) < n: xs.append(0)` padding loops of
`_is_version_compatible`: the loop body runs exactly `n - len(xs)`
times (zero times when `xs` is already at least as long as `n`). -/
def padTo (xs : List Int) (n : Nat) : List Int :=
  padZeros (n - xs.length) xs

/-- The component comparison loop of `_is_version_compatible`:
`for v, m in zip(...)`, returning early on the first strict
inequality, `true` when the zip is exhausted. -/
def compareParts : List Int → List Int → Bool
  | v :: vs, m :: ms =>
    if v > m then true
    else if v < m then false
    else compareParts vs ms
  | _, _ => true

namespace SN2ConfigFlow

/-- `SN2ConfigFlow._is_version_compatible` from `config_flow.py`:
clean both strings, split on `.`, parse every component as an integer
(any failure is caught and yields `False`), pad the shorter component
list with zeros, then compare component-wise. -/
def _is_version_compatible (version min_version : String) : Bool :=
  let clean_version := cleanPart version.data
  let clean_min_version := cleanPart min_version.data
  match (splitOnChar '.' clean_version).mapM parsePyInt,
        (splitOnChar '.' clean_min_version).mapM parsePyInt with
  | some version_parts, some min_version_parts =>
    let version_parts := padTo version_parts min_version_parts.length
    let min_version_parts := padTo min_version_parts version_parts.length
    compareParts version_parts min_version_parts
  | _, _ => false

end SN2ConfigFlow

/-- First position at which two equal-length component lists differ. -/
def firstDiff : List Int → List Int → Option (Int × Int)
  | v :: vs, m :: ms => if v ≠ m then some (v, m) else firstDiff vs ms
  | _, _ => none

/-- Comparison as the specification words it: the first differing
component decides (greater means compatible); all equal means
compatible. -/
def specCompare (vs ms : List Int) : Bool :=
  match firstDiff vs ms with
  | some (v, m) => v > m
  | none => true

/-- The version comparator as the specification describes it: strip
suffixes, split on `.`, parse, right-pad the SHORTER list with zeros to
the common (maximal) length, and let the first differing component
decide. -/
def specVersionCompatible (version min_version : String) : Bool :=
  let v := cleanPart version.data
  let m := cleanPart min_version.data
  match (splitOnChar '.' v).mapM parsePyInt,
        (splitOnChar '.' m).mapM parsePyInt with
  | some vp, some mp =>
    let n := max vp.length mp.length
    specCompare (vp ++ List.replicate (n - vp.length) 0)
                (mp ++ List.replicate (n - mp.length) 0)
  | _, _ => false

/-! ## Discovery admission (`config_flow.py`, `async_step_zeroconf`) -/

/-- The fields of a zeroconf service advertisement that
`async_step_zeroconf` reads: `host`, `name`, and the properties
`model`, `version`, `id` (each `none` when absent from the mDNS
record). -/
structure ZeroconfInfo where
  host : String
  name : String
  model : Option String
  version : Option String
  id : Option String
deriving DecidableEq

/-- The outcome of a config-flow step: an abort with a reason string,
or a created config entry carrying the stored `data` fields. -/
inductive FlowResult
  | abort (reason : String)
  | create_entry (title host name model device_id device_type : String)
deriving DecidableEq

namespace SN2ConfigFlow

/-- `SN2ConfigFlow.async_step_zeroconf` from `config_flow.py`.
`already_configured` models the framework call
`_abort_if_unique_id_configured` (which aborts the flow when a config
entry with the same unique id already exists).  The classification of
`model` into a device type reproduces the source exactly: the first
`if model in SWITCH_MODELS` statement is NOT chained to the following
`if model in PLUG_MODELS / elif / else` chain, so its assignment to
`device_type` is dead and a switch model falls into the final `else`. -/
def async_step_zeroconf (discovery_info : ZeroconfInfo)
    (already_configured : Bool) : FlowResult :=
  let host := discovery_info.host
  let name := String.mk ((splitOnChar '.' discovery_info.name.data).headD [])
  match discovery_info.model with
  | none => .abort "not_supported"
  | some model =>
    if model ∉ SWITCH_MODELS ∧ model ∉ LIGHT_MODELS ∧ model ∉ PLUG_MODELS then
      .abort "unsupported_model"
    else
      match discovery_info.version with
      | none => .abort "firmware_version_missing"
      | some device_version =>
        if ¬ _is_version_compatible device_version "0.9.5" then
          .abort "firmware_version_incompatible"
        else
          let device_id := discovery_info.id.getD name
          let finish := fun (device_type : String) =>
            if already_configured then FlowResult.abort "already_configured"
            else
              .create_entry (name ++ " (" ++ model ++ ")")
                host name model device_id device_type
          let _device_type :=
            if model ∈ SWITCH_MODELS then some "switch" else none
          if model ∈ PLUG_MODELS then finish "switch"
          else if model ∈ LIGHT_MODELS then finish "light"
          else .abort "not_supported"

end SN2ConfigFlow

/-! ## Entity state models (`light.py`, `switch.py`)

Each Python entity object becomes a record of its mutable attributes;
`async_write_ha_state()` calls (the presentation-layer notification)
are counted in `notify`. -/

/-- Python's built-in one-argument `round`: round half to even
(banker's rounding), on exact rationals. -/
def pyRound (q : ℚ) : ℤ :=
  if q - ⌊q⌋ < 1/2 then ⌊q⌋
  else if 1/2 < q - ⌊q⌋ then ⌊q⌋ + 1
  else if ⌊q⌋ % 2 = 0 then ⌊q⌋ else ⌊q⌋ + 1

/-- Python's two-argument `round(x, 2)`: round to the nearest multiple
of `1/100`, half to even. -/
def round2 (q : ℚ) : ℚ := (pyRound (q * 100) : ℚ) / 100

/-- A wire command `{"type": ..., "value": ...}`. -/
structure Command where
  type : String
  value : ℚ
deriving DecidableEq

/-- A websocket connection handle (opaque in the model). -/
abbrev Conn := Nat

/-- Outcome of an attempted `await websocket.send(...)`:
success, `websockets.exceptions.ConnectionClosed`, or any other
exception. -/
inductive SendResult
  | ok
  | connectionClosed
  | otherError
deriving DecidableEq

/-- The mutable state of an `SN2Light` entity: `_attr_is_on`,
`_attr_brightness`, `_attr_available`, and the count of
`async_write_ha_state()` notifications issued so far. -/
structure LightState where
  is_on : Bool
  brightness : Int
  available : Bool
  notify : Nat
deriving DecidableEq

/-- The dynamic type of the `state` argument `handle_state_update`
receives from the dispatcher: a Python `bool`, or an `int`/`float`
modelled as an exact rational. -/
inductive StateVal
  | b (v : Bool)
  | num (v : ℚ)
deriving DecidableEq

namespace SN2Light

/-- `SN2Light.__init__`: `_attr_is_on = False`,
`_attr_brightness = 255`, availability taken from
`device_info.get("available", False)`; no notification yet. -/
def init (device_available : Bool) : LightState :=
  { is_on := false, brightness := 255, available := device_available,
    notify := 0 }

/-- `SN2Light.handle_state_update`: a `bool` sets `is_on` directly
(refreshing brightness to 255 when turning on); a number sets
`is_on := false` when zero (brightness untouched), otherwise
`is_on := true` and `brightness := min(255, max(0, round(value*255)))`.
Each branch ends with exactly one `async_write_ha_state()`. -/
def handle_state_update (s : LightState) : StateVal → LightState
  | .b v =>
    let s := { s with is_on := v }
    let s := if v then { s with brightness := 255 } else s
    { s with notify := s.notify + 1 }
  | .num r =>
    let brightness_value := r
    let s :=
      if brightness_value = 0 then { s with is_on := false }
      else
        { s with is_on := true,
                 brightness :=
                   min 255 (max 0 (pyRound (brightness_value * 255))) }
    { s with notify := s.notify + 1 }

/-- `SN2Light.set_available`: update and notify only when the flag
actually changes. -/
def set_available (s : LightState) (available : Bool) : LightState :=
  if s.available ≠ available then
    { s with available := available, notify := s.notify + 1 }
  else s

/-- The command built by `SN2Light.async_turn_on`: value `-1` (toggle)
when no brightness is supplied, otherwise
`round(brightness / 255, 2)`. -/
def async_turn_on_command (brightness : Option ℤ) : Command :=
  match brightness with
  | none => { type := "state", value := -1 }
  | some b => { type := "state", value := round2 ((b : ℚ) / 255) }

/-- The command built by `SN2Light.async_turn_off`. -/
def async_turn_off_command : Command := { type := "state", value := 0 }

/-- The command built by `SN2Light.async_toggle`. -/
def async_toggle_command : Command := { type := "state", value := -1 }

/-- `SN2Light._send_command`: with no websocket handle the command is
dropped (log only); with a handle, a `ConnectionClosed` failure calls
`set_available(False)`, any other failure is only logged.  Returns the
entity state after the call. -/
def _send_command (ws_client : Option Conn) (result : SendResult)
    (s : LightState) : LightState :=
  match ws_client with
  | none => s
  | some _ =>
    match result with
    | .ok => s
    | .connectionClosed => set_available s false
    | .otherError => s

end SN2Light

/-- The mutable state of an `SN2SwitchPlug` entity. -/
structure SwitchState where
  is_on : Bool
  available : Bool
  notify : Nat
deriving DecidableEq

namespace SN2SwitchPlug

/-- `SN2SwitchPlug.__init__`: `_attr_is_on = False`, availability from
`device_info.get("available", False)`. -/
def init (device_available : Bool) : SwitchState :=
  { is_on := false, available := device_available, notify := 0 }

/-- `SN2SwitchPlug.handle_state_update`: store the boolean and notify
once. -/
def handle_state_update (s : SwitchState) (state : Bool) : SwitchState :=
  { s with is_on := state, notify := s.notify + 1 }

/-- `SN2SwitchPlug.set_available`: update and notify only when the flag
actually changes. -/
def set_available (s : SwitchState) (available : Bool) : SwitchState :=
  if s.available ≠ available then
    { s with available := available, notify := s.notify + 1 }
  else s

/-- `SN2SwitchPlug._send_command`, identical in structure to the light
version. -/
def _send_command (ws_client : Option Conn) (result : SendResult)
    (s : SwitchState) : SwitchState :=
  match ws_client with
  | none => s
  | some _ =>
    match result with
    | .ok => s
    | .connectionClosed => set_available s false
    | .otherError => s

end SN2SwitchPlug

/-! ## Message dispatch (`__init__.py`, `process_message`) -/

/-- A decoded inbound JSON frame, as `process_message` reads it:
`type` models `data.get("type")` and `value` models `data.get("value")`
(`none` when the field is absent; a present numeric value is an exact
rational). -/
structure Frame where
  type : Option String
  value : Option ℚ
deriving DecidableEq

/-- The observable outcome of one `process_message` call on a `state`
or `device_reset` frame. -/
inductive ProcessResult
  | scheduledRemoval
  | updatedSwitch (s : SwitchState)
  | updatedLight (l : LightState)
  | entityNotFound
  | ignored
deriving DecidableEq

/-- `process_message` from `__init__.py`, for a frame that parsed as
JSON.  `device_type` is `device_info.get("type")`; `switch_entity` and
`light_entity` model the registry lookups
`hass.data[DOMAIN].get("switch.<name>")` /
`hass.data[DOMAIN].get("light.<name>")` (entities are registered under
their own platform prefix, so a `switch.`-keyed entry is always a
switch entity and a `light.`-keyed one a light entity).
A `device_reset` frame schedules entry removal; a `state` frame reads
`float(data.get("value", 0))` and dispatches to the entity found for
the device type (`bool(state_value)` for a switch, the raw number for
a light); a missing entity is logged; any other frame type falls
through with no effect. -/
def process_message (f : Frame) (device_type : Option String)
    (switch_entity : Option SwitchState)
    (light_entity : Option LightState) : ProcessResult :=
  if f.type = some "device_reset" then .scheduledRemoval
  else if f.type = some "state" then
    let state_value : ℚ := f.value.getD 0
    if device_type = some "switch" then
      let is_on : Bool := if state_value = 0 then false else true
      match switch_entity with
      | some s => .updatedSwitch (SN2SwitchPlug.handle_state_update s is_on)
      | none => .entityNotFound
    else if device_type = some "light" then
      match light_entity with
      | some l => .updatedLight (SN2Light.handle_state_update l (.num state_value))
      | none => .entityNotFound
    else .entityNotFound
  else .ignored

/-! ## Availability broadcaster (`__init__.py`,
`set_device_availability`) -/

/-- An entity registered in `device_info["entities"]`. -/
inductive Entity
  | sw (s : SwitchState)
  | li (l : LightState)
deriving DecidableEq

/-- `set_available` dispatched on an entity of either kind (the
`hasattr(entity, "set_available")` call). -/
def Entity.set_available : Entity → Bool → Entity
  | .sw s, b => .sw (SN2SwitchPlug.set_available s b)
  | .li l, b => .li (SN2Light.set_available l b)

/-- The availability-related part of `device_info`: the device-level
`available` flag and the registered entity list. -/
structure DeviceAvail where
  available : Bool
  entities : List Entity
deriving DecidableEq

/-- `set_device_availability` from `__init__.py`: only when the
device-level flag changes, store it and fan the new value out to every
registered entity. -/
def set_device_availability (d : DeviceAvail) (available : Bool) :
    DeviceAvail :=
  if d.available ≠ available then
    { available := available,
      entities := d.entities.map (fun e => e.set_available available) }
  else d

/-! ## Device session loop (`__init__.py`, `start_websocket_client` /
`stop_websocket_client`)

The single task running the loop is modelled as a labelled transition
system whose states sit at the suspension points of the task; each
transition is the synchronous block of code between two suspension
points. -/

/-- Where the session task is suspended. -/
inductive Phase
  | connecting   -- inside `websockets.connect(uri)`
  | loggingIn    -- inside `websocket.send(json.dumps(login_message))`
  | receiving    -- inside `websocket.recv()`
  | sleeping     -- inside `asyncio.sleep(30)`
  | stopped      -- after `stop_websocket_client`
deriving DecidableEq

/-- The session-level mutable state: `device_info["ws_client"]`,
`device_info["available"]`, whether the login frame of the current
connection was sent, and the suspension point. -/
structure SessionState where
  ws_client : Option Conn
  available : Bool
  loginSent : Bool
  phase : Phase
deriving DecidableEq

/-- The state of the session task at its first suspension point:
`device_info` starts with `ws_client = None`, `available = False`; the
loop head has set availability to `False` (a no-op) and is awaiting
`websockets.connect`. -/
def initState : SessionState :=
  { ws_client := none, available := false, loginSent := false,
    phase := .connecting }

/-- The events that resume the session task. -/
inductive SessionEvent
  | connectOk (c : Conn)  -- `websockets.connect` returns a socket
  | connectErr            -- the `except (OSError, WebSocketException)` handler fires
  | loginOk               -- the login `send` returns
  | recvMsg               -- `recv` returns a frame (dispatch never raises out)
  | recvClosed            -- `recv` raises `ConnectionClosed`
  | wake                  -- `asyncio.sleep(30)` elapses; loop head runs again
  | teardown              -- `stop_websocket_client`
deriving DecidableEq

/-- One synchronous block of `start_websocket_client` /
`stop_websocket_client`, from one suspension point to the next.
`connectErr` is the single `except (OSError, WebSocketException)`
handler of the loop body: it also catches errors raised by the login
`send` or by `recv` (other than the `ConnectionClosed` handled by the
inner `try`), and it both clears `ws_client` and demotes availability.
`recvClosed` (the inner handler) demotes availability but leaves
`ws_client` untouched. -/
inductive SessionStep : SessionState → SessionEvent → SessionState → Prop
  | connectOk (s : SessionState) (c : Conn) :
      s.phase = .connecting →
      SessionStep s (.connectOk c)
        { ws_client := some c, available := true, loginSent := false,
          phase := .loggingIn }
  | connectErr (s : SessionState) :
      (s.phase = .connecting ∨ s.phase = .loggingIn ∨
        s.phase = .receiving) →
      SessionStep s .connectErr
        { ws_client := none, available := false, loginSent := false,
          phase := .sleeping }
  | loginOk (s : SessionState) :
      s.phase = .loggingIn →
      SessionStep s .loginOk { s with loginSent := true, phase := .receiving }
  | recvMsg (s : SessionState) :
      s.phase = .receiving →
      SessionStep s .recvMsg s
  | recvClosed (s : SessionState) :
      s.phase = .receiving →
      SessionStep s .recvClosed
        { s with available := false, phase := .sleeping }
  | wake (s : SessionState) :
      s.phase = .sleeping →
      SessionStep s .wake { s with available := false, phase := .connecting }
  | teardown (s : SessionState) :
      SessionStep s .teardown
        { s with ws_client := none, available := false, phase := .stopped }

/-- States the session task can actually be in. -/
inductive SessionReachable : SessionState → Prop
  | init : SessionReachable initState
  | step (s : SessionState) (e : SessionEvent) (s' : SessionState) :
      SessionReachable s → SessionStep s e s' → SessionReachable s'

/-! ## Properties named by the claims -/

/-- The Light invariant claimed by the specification: a positive
brightness forces `is_on` and a zero brightness forces `¬ is_on`. -/
def LightInv (s : LightState) : Prop :=
  (0 < s.brightness → s.is_on = true) ∧ (s.brightness = 0 → s.is_on = false)

instance (s : LightState) : Decidable (LightInv s) := by
  unfold LightInv
  infer_instance

/-- The brightness range invariant that the Light entity does
maintain. -/
def LightRange (s : LightState) : Prop :=
  0 ≤ s.brightness ∧ s.brightness ≤ 255

instance (s : LightState) : Decidable (LightRange s) := by
  unfold LightRange
  infer_instance

/-! # Theorems -/

lemma padZeros_eq (fuel : Nat) (xs : List Int) :
    padZeros fuel xs = xs ++ List.replicate fuel 0 := by
  induction fuel generalizing xs with
  | zero => simp [padZeros]
  | succ k ih => simp [padZeros, ih, List.replicate_succ]

lemma padTo_eq (xs : List Int) (n : Nat) :
    padTo xs n = xs ++ List.replicate (n - xs.length) 0 := by
  simp [padTo, padZeros_eq]

lemma padTo_length (xs : List Int) (n : Nat) :
    (padTo xs n).length = max xs.length n := by
  rw [padTo_eq]
  simp
  omega

lemma compareParts_eq_specCompare (vs ms : List Int) :
    compareParts vs ms = specCompare vs ms := by
  induction vs generalizing ms with
  | nil => cases ms <;> simp [compareParts, specCompare, firstDiff]
  | cons v vs ih =>
    cases ms with
    | nil => simp [compareParts, specCompare, firstDiff]
    | cons m ms =>
      by_cases hvm : v = m
      · subst hvm
        simp [compareParts, specCompare, firstDiff, ih]
      · rcases lt_or_gt_of_ne hvm with hlt | hgt
        · simp [compareParts, specCompare, firstDiff, hvm, hlt, not_lt.mpr (le_of_lt hlt)]
        · simp [compareParts, specCompare, firstDiff, hvm, hgt, not_lt.mpr (le_of_lt hgt)]

/-- C3: `_is_version_compatible(version, min_version)` strips any `-`
pre-release and `+` build-metadata suffix from both strings, splits on
`.`, right-pads the shorter integer component list with zeros, and
compares component-wise left to right with the first differing component
deciding; in particular `is_compatible("0.9.5","0.9.5") = true`,
`is_compatible("0.9.4","0.9.5") = false`,
`is_compatible("1.0","0.9.5") = true`,
`is_compatible("0.9.5-beta.2","0.9.5") = true`, and
`is_compatible("abc","0.9.5") = false` with no exception escaping (the
function is total and returns `false` on a parse failure). -/
theorem C3_version_comparator :
    (∀ version min_version : String,
      SN2ConfigFlow._is_version_compatible version min_version
        = specVersionCompatible version min_version)
    ∧ SN2ConfigFlow._is_version_compatible "0.9.5" "0.9.5" = true
    ∧ SN2ConfigFlow._is_version_compatible "0.9.4" "0.9.5" = false
    ∧ SN2ConfigFlow._is_version_compatible "1.0" "0.9.5" = true
    ∧ SN2ConfigFlow._is_version_compatible "0.9.5-beta.2" "0.9.5" = true
    ∧ SN2ConfigFlow._is_version_compatible "abc" "0.9.5" = false := by
  refine ⟨?_, by decide, by decide, by decide, by decide, by decide⟩
  intro version min_version
  unfold SN2ConfigFlow._is_version_compatible specVersionCompatible
  cases hv : (splitOnChar '.' (cleanPart version.data)).mapM parsePyInt with
  | none =>
    cases hm : (splitOnChar '.' (cleanPart min_version.data)).mapM parsePyInt <;>
      simp only [hv, hm]
  | some vp =>
    cases hm : (splitOnChar '.' (cleanPart min_version.data)).mapM parsePyInt with
    | none => simp only [hv, hm]
    | some mp =>
      simp only [hv, hm]
      rw [compareParts_eq_specCompare, padTo_length, padTo_eq, padTo_eq]
      have h1 : mp.length - vp.length = max vp.length mp.length - vp.length := by
        omega
      rw [h1]


/-- C1: the code_bug evaluation.  A discovered device whose model is the
toggle-switch model `WBR-01` with compatible firmware is NOT admitted:
`async_step_zeroconf` aborts with reason `not_supported`, because the
`if model in SWITCH_MODELS` statement is not chained into the following
`if/elif/else` cascade (contradicting the code's own comment that the
final `else` "should never happen").  Plug-outlet and dimmable-light
models are admitted with entry types `switch` and `light` as the claim
states. -/
theorem C1_switch_admission_aborts :
    SN2ConfigFlow.async_step_zeroconf
        ⟨"192.168.1.20", "nexa-switch.local", some "WBR-01",
          some "0.9.5", some "dev1"⟩ false
      = .abort "not_supported"
    ∧ SN2ConfigFlow.async_step_zeroconf
        ⟨"192.168.1.21", "plug.local", some "WPR-01",
          some "0.9.5", some "dev2"⟩ false
      = .create_entry "plug (WPR-01)" "192.168.1.21" "plug" "WPR-01"
          "dev2" "switch"
    ∧ SN2ConfigFlow.async_step_zeroconf
        ⟨"192.168.1.22", "plug2.local", some "WPO-01",
          some "0.9.5", some "dev3"⟩ false
      = .create_entry "plug2 (WPO-01)" "192.168.1.22" "plug2" "WPO-01"
          "dev3" "switch"
    ∧ SN2ConfigFlow.async_step_zeroconf
        ⟨"192.168.1.23", "dim.local", some "WBD-01",
          some "0.9.5", some "dev4"⟩ false
      = .create_entry "dim (WBD-01)" "192.168.1.23" "dim" "WBD-01"
          "dev4" "light"
    ∧ SN2ConfigFlow.async_step_zeroconf
        ⟨"192.168.1.24", "dim2.local", some "WPD-01",
          some "0.9.5", some "dev5"⟩ false
      = .create_entry "dim2 (WPD-01)" "192.168.1.24" "dim2" "WPD-01"
          "dev5" "light" := by
  refine ⟨by decide, by decide, by decide, by decide, by decide⟩

/-- C2 counterexample: the claimed Light invariant (`brightness > 0`
implies `is_on`, `brightness = 0` implies `¬ is_on`) is already false
at construction: `SN2Light.__init__` sets `is_on = False` and
`brightness = 255`. -/
theorem C2_initial_state_violates_invariant :
    ¬ LightInv (SN2Light.init false) := by
  decide

/-- C2 amended: the invariant the Light entity does maintain is the
brightness range `0 ≤ brightness ≤ 255`: it holds at construction and
is preserved by `handle_state_update` on any boolean or numeric input
and by `set_available`.  (The claimed on/off coupling fails: the
initial state has `brightness = 255` with `is_on = false`, and a zero
update turns the light off leaving brightness positive.) -/
theorem C2_brightness_range_invariant :
    (∀ a : Bool, LightRange (SN2Light.init a))
    ∧ (∀ (s : LightState) (v : StateVal),
        LightRange s → LightRange (SN2Light.handle_state_update s v))
    ∧ (∀ (s : LightState) (b : Bool),
        LightRange s → LightRange (SN2Light.set_available s b)) := by
  refine ⟨fun a => by simp [LightRange, SN2Light.init], ?_, ?_⟩
  · intro s v h
    cases v with
    | b v =>
      cases v with
      | false => simpa [LightRange, SN2Light.handle_state_update] using h
      | true => simp [LightRange, SN2Light.handle_state_update]
    | num r =>
      by_cases hr : r = 0
      · simpa [LightRange, SN2Light.handle_state_update, hr] using h
      · simp only [LightRange, SN2Light.handle_state_update, hr,
          if_neg hr]
        constructor <;> simp [le_min_iff, le_max_iff]
  · intro s b h
    unfold SN2Light.set_available
    split <;> simpa [LightRange] using h

/-- C2 witness: the preservation clauses applied at a concrete state
and input. -/
theorem C2_brightness_range_invariant_witness :
    LightRange
      (SN2Light.handle_state_update (SN2Light.init false)
        (.b true)) :=
  C2_brightness_range_invariant.2.1 (SN2Light.init false) (.b true)
    (C2_brightness_range_invariant.1 false)

lemma pyRound_255_2 : pyRound ((255 : ℚ)/2) = 128 := by
  unfold pyRound
  have hf : ⌊(255/2 : ℚ)⌋ = 127 := by
    rw [Int.floor_eq_iff]
    norm_num
  rw [hf]
  norm_num

lemma pyRound_2560_51 : pyRound ((2560 : ℚ)/51) = 50 := by
  unfold pyRound
  have hf : ⌊(2560/51 : ℚ)⌋ = 50 := by
    rw [Int.floor_eq_iff]
    norm_num
  rw [hf]
  norm_num

lemma pyRound_20_51 : pyRound ((20 : ℚ)/51) = 0 := by
  unfold pyRound
  have hf : ⌊(20/51 : ℚ)⌋ = 0 := by
    rw [Int.floor_eq_iff]
    norm_num
  rw [hf]
  norm_num

/-- C4: for every raw numeric value `r` delivered to
`SN2Light.handle_state_update`: `r = 0` turns the light off leaving
brightness unchanged; any other value turns it on with brightness
`clamp(round(r*255), 0, 255)`; every call notifies exactly once.  In
particular a light receiving `0.5` ends with `is_on = true` and
`brightness = 128`. -/
theorem C4_light_numeric_decode :
    (∀ (s : LightState) (r : ℚ),
      (SN2Light.handle_state_update s (.num r)).is_on
          = (if r = 0 then false else true)
      ∧ (SN2Light.handle_state_update s (.num r)).brightness
          = (if r = 0 then s.brightness
             else min 255 (max 0 (pyRound (r * 255))))
      ∧ (SN2Light.handle_state_update s (.num r)).notify = s.notify + 1)
    ∧ (SN2Light.handle_state_update (SN2Light.init false)
        (.num (1/2))).is_on = true
    ∧ (SN2Light.handle_state_update (SN2Light.init false)
        (.num (1/2))).brightness = 128
    ∧ (SN2Light.handle_state_update (SN2Light.init false)
        (.num (1/2))).notify = (SN2Light.init false).notify + 1 := by
  have hne : (1/2 : ℚ) ≠ 0 := by norm_num
  have h2 : (1/2 : ℚ) * 255 = 255/2 := by norm_num
  refine ⟨?_, ?_, ?_, ?_⟩
  · intro s r
    by_cases hr : r = 0 <;> simp [SN2Light.handle_state_update, hr]
  · simp [SN2Light.handle_state_update, SN2Light.init, hne]
  · simp only [SN2Light.handle_state_update, SN2Light.init, hne,
      if_neg hne]
    rw [h2, pyRound_255_2]
    rfl
  · simp [SN2Light.handle_state_update, SN2Light.init, hne]

/-- C5: `_send_command`, for both entity kinds: with no connection
handle the entity state is returned unchanged (the command is silently
dropped); with a handle, a connection-closed failure calls
`set_available(False)`, any other failure leaves the state unchanged;
and a send never promotes availability to `true`. -/
theorem C5_send_command_case_analysis :
    (∀ (res : SendResult) (e : LightState),
        SN2Light._send_command none res e = e)
    ∧ (∀ (res : SendResult) (e : SwitchState),
        SN2SwitchPlug._send_command none res e = e)
    ∧ (∀ (c : Conn) (e : LightState),
        SN2Light._send_command (some c) .connectionClosed e
          = SN2Light.set_available e false)
    ∧ (∀ (c : Conn) (e : SwitchState),
        SN2SwitchPlug._send_command (some c) .connectionClosed e
          = SN2SwitchPlug.set_available e false)
    ∧ (∀ (c : Conn) (e : LightState),
        SN2Light._send_command (some c) .otherError e = e)
    ∧ (∀ (c : Conn) (e : SwitchState),
        SN2SwitchPlug._send_command (some c) .otherError e = e)
    ∧ (∀ (ws : Option Conn) (res : SendResult) (e : LightState),
        (SN2Light._send_command ws res e).available = true →
          e.available = true)
    ∧ (∀ (ws : Option Conn) (res : SendResult) (e : SwitchState),
        (SN2SwitchPlug._send_command ws res e).available = true →
          e.available = true) := by
  refine ⟨fun _ _ => rfl, fun _ _ => rfl, fun _ _ => rfl, fun _ _ => rfl,
    fun _ _ => rfl, fun _ _ => rfl, ?_, ?_⟩
  · intro ws res e h
    cases ws with
    | none => exact h
    | some c =>
      cases res with
      | ok => exact h
      | otherError => exact h
      | connectionClosed =>
        simp only [SN2Light._send_command, SN2Light.set_available] at h
        split at h
        · simp at h
        · exact h
  · intro ws res e h
    cases ws with
    | none => exact h
    | some c =>
      cases res with
      | ok => exact h
      | otherError => exact h
      | connectionClosed =>
        simp only [SN2SwitchPlug._send_command,
          SN2SwitchPlug.set_available] at h
        split at h
        · simp at h
        · exact h

/-- C5 witness: the never-promotes clause applied with no handle to a
concrete available switch entity. -/
theorem C5_send_command_witness :
    (SN2SwitchPlug._send_command none .ok
        { is_on := false, available := true, notify := 0 }).available = true
    ∧ ({ is_on := false, available := true, notify := 0 } :
        SwitchState).available = true :=
  ⟨by decide,
    C5_send_command_case_analysis.2.2.2.2.2.2.2 none .ok
      { is_on := false, available := true, notify := 0 } (by decide)⟩

/-- C6: `set_available(b)` is a notification-idempotent update for both
entity kinds: a no-op (no notification) when the flag already equals
`b`, otherwise one flag update with exactly one notification; repeating
it adds nothing.  The session-level broadcaster
`set_device_availability` has the same guard, so a second demotion
after a connection-closed event is a no-op. -/
theorem C6_set_available_idempotent :
    (∀ (s : SwitchState) (b : Bool), s.available = b →
        SN2SwitchPlug.set_available s b = s)
    ∧ (∀ (s : SwitchState) (b : Bool), s.available ≠ b →
        (SN2SwitchPlug.set_available s b).available = b
        ∧ (SN2SwitchPlug.set_available s b).notify = s.notify + 1)
    ∧ (∀ (s : SwitchState) (b : Bool),
        SN2SwitchPlug.set_available (SN2SwitchPlug.set_available s b) b
          = SN2SwitchPlug.set_available s b)
    ∧ (∀ (l : LightState) (b : Bool), l.available = b →
        SN2Light.set_available l b = l)
    ∧ (∀ (l : LightState) (b : Bool), l.available ≠ b →
        (SN2Light.set_available l b).available = b
        ∧ (SN2Light.set_available l b).notify = l.notify + 1)
    ∧ (∀ (l : LightState) (b : Bool),
        SN2Light.set_available (SN2Light.set_available l b) b
          = SN2Light.set_available l b)
    ∧ (∀ (d : DeviceAvail) (b : Bool),
        set_device_availability (set_device_availability d b) b
          = set_device_availability d b) := by
  refine ⟨?_, ?_, ?_, ?_, ?_, ?_, ?_⟩
  · intro s b h
    simp [SN2SwitchPlug.set_available, h]
  · intro s b h
    simp [SN2SwitchPlug.set_available, h]
  · intro s b
    unfold SN2SwitchPlug.set_available
    by_cases h : s.available = b <;> simp [h]
  · intro l b h
    simp [SN2Light.set_available, h]
  · intro l b h
    simp [SN2Light.set_available, h]
  · intro l b
    unfold SN2Light.set_available
    by_cases h : l.available = b <;> simp [h]
  · intro d b
    unfold set_device_availability
    by_cases h : d.available = b <;> simp [h]

/-- C6 witness: the no-op clause applied to a concrete already-available
switch entity. -/
theorem C6_set_available_witness :
    (({ is_on := false, available := true, notify := 0 } :
        SwitchState).available = true)
    ∧ SN2SwitchPlug.set_available
        { is_on := false, available := true, notify := 0 } true
      = { is_on := false, available := true, notify := 0 } :=
  ⟨by decide,
    C6_set_available_idempotent.1
      { is_on := false, available := true, notify := 0 } true (by decide)⟩

/-- C9: a `state` frame with no `value` field is dispatched, not
ignored: `data.get("value", 0)` substitutes `0`, so a switch entity is
set to `is_on = false` and a light entity to `is_on = false` with
brightness unchanged (one notification each); the dispatch is a total
function (no exception), and the resulting `updatedSwitch` /
`updatedLight` outcomes are by construction not the ignored branch. -/
theorem C9_missing_value_defaults_zero :
    (∀ s : SwitchState,
        process_message ⟨some "state", none⟩ (some "switch") (some s) none
          = .updatedSwitch { s with is_on := false, notify := s.notify + 1 })
    ∧ (∀ l : LightState,
        process_message ⟨some "state", none⟩ (some "light") none (some l)
          = .updatedLight
              { l with is_on := false, notify := l.notify + 1 }) := by
  refine ⟨?_, ?_⟩
  · intro s
    simp [process_message, SN2SwitchPlug.handle_state_update]
  · intro l
    simp [process_message, SN2Light.handle_state_update]

lemma session_phase_handle :
    ∀ s, SessionReachable s →
      (s.phase = .loggingIn ∨ s.phase = .receiving) →
      s.ws_client ≠ none := by
  intro s₀ hs
  induction hs with
  | init => simp [initState]
  | step s e s' hs hstep ih =>
    cases hstep with
    | connectOk c hp => simp
    | connectErr hp => simp
    | loginOk hp =>
      intro _
      exact ih (Or.inl hp)
    | recvMsg hp => exact ih
    | recvClosed hp => simp
    | wake hp => simp
    | teardown => simp

/-- C7 counterexample: it is not true that in every reachable session
state `available = true` implies both a non-null connection handle and
a completed login handshake.  After a successful
`websockets.connect`, the loop stores the handle and sets availability
true BEFORE awaiting the login send, so the state suspended in the
login `send` is reachable with `available = true` and the login frame
not yet sent. -/
theorem C7_login_not_required_for_available :
    ¬ (∀ s, SessionReachable s → s.available = true →
        s.ws_client ≠ none ∧ s.loginSent = true) := by
  intro h
  have hreach : SessionReachable
      { ws_client := some 0, available := true, loginSent := false,
        phase := .loggingIn } :=
    SessionReachable.step _ _ _ SessionReachable.init
      (SessionStep.connectOk initState 0 rfl)
  have h2 := h _ hreach rfl
  simp at h2

/-- C7 amended: in every reachable state of the session loop,
`available = true` implies the stored connection handle is non-null
(the login-completed half of the claimed invariant does not hold, since
availability is promoted before the login frame is awaited). -/
theorem C7_available_implies_handle :
    ∀ s, SessionReachable s → s.available = true → s.ws_client ≠ none := by
  intro s₀ hs
  induction hs with
  | init => simp [initState]
  | step s e s' hs hstep ih =>
    cases hstep with
    | connectOk c hp => simp
    | connectErr hp => simp
    | loginOk hp => exact ih
    | recvMsg hp => exact ih
    | recvClosed hp => simp
    | wake hp => simp
    | teardown => simp

/-- C7 witness: the amended invariant applied to the concrete reachable
state suspended in the login send. -/
theorem C7_available_implies_handle_witness :
    ({ ws_client := some 0, available := true, loginSent := false,
       phase := .loggingIn } : SessionState).ws_client ≠ none :=
  C7_available_implies_handle _
    (SessionReachable.step _ _ _ SessionReachable.init
      (SessionStep.connectOk initState 0 rfl))
    rfl

/-- C10: the inner `ConnectionClosed` handler of the receive loop
leaves `ws_client` untouched (and in the receiving phase the handle is
non-null, so it stays non-null but stale); the handle is cleared only
by the outer connect-failure handler or by teardown; consequently a
command sent between a clean close and the next reconnect takes the
transmit-and-fail path, whose `ConnectionClosed` branch demotes entity
availability, rather than the handle-absent drop path. -/
theorem C10_handle_survives_clean_close :
    (∀ (s s' : SessionState), SessionStep s .recvClosed s' →
        s'.ws_client = s.ws_client)
    ∧ (∀ s : SessionState, SessionReachable s → s.phase = .receiving →
        s.ws_client ≠ none)
    ∧ (∀ (s s' : SessionState) (e : SessionEvent), SessionStep s e s' →
        s'.ws_client = none →
        s.ws_client = none ∨ e = .connectErr ∨ e = .teardown)
    ∧ (∀ (c : Conn) (e : LightState),
        SN2Light._send_command (some c) .connectionClosed e
          = SN2Light.set_available e false) := by
  refine ⟨?_, ?_, ?_, fun c e => rfl⟩
  · intro s s' hstep
    cases hstep with
    | recvClosed hp => rfl
  · intro s hs hp
    exact session_phase_handle s hs (Or.inr hp)
  · intro s s' e hstep hnone
    cases hstep with
    | connectOk c hp => simp at hnone
    | connectErr hp => exact Or.inr (Or.inl rfl)
    | loginOk hp => exact Or.inl hnone
    | recvMsg hp => exact Or.inl hnone
    | recvClosed hp => exact Or.inl hnone
    | wake hp => exact Or.inl hnone
    | teardown => exact Or.inr (Or.inr rfl)

/-- C10 witness: the clean-close step applied to a concrete receiving
state with a stored handle. -/
theorem C10_handle_survives_clean_close_witness :
    (SessionState.mk (some 0) false true .sleeping).ws_client
    = (SessionState.mk (some 0) true true .receiving).ws_client :=
  C10_handle_survives_clean_close.1
    (SessionState.mk (some 0) true true .receiving)
    (SessionState.mk (some 0) false true .sleeping)
    (SessionStep.recvClosed _ rfl)

lemma pyRound_sub_le (q : ℚ) : |(pyRound q : ℚ) - q| ≤ 1/2 := by
  have h0 : (⌊q⌋ : ℚ) ≤ q := Int.floor_le q
  have h1 : q < ⌊q⌋ + 1 := Int.lt_floor_add_one q
  unfold pyRound
  split_ifs with ha hb hc <;>
    (rw [abs_le]; constructor <;> push_cast <;> linarith)

lemma round_trip_close (b : ℤ) (hb2 : 2 ≤ b) (hb255 : b ≤ 255)
    (s : LightState) :
    |(SN2Light.handle_state_update s
        (.num (SN2Light.async_turn_on_command (some b)).value)).brightness
      - b| ≤ 2 := by
  rw [show (SN2Light.async_turn_on_command (some b)).value
      = (pyRound ((b : ℚ)/255 * 100) : ℚ)/100 from rfl]
  set z : ℤ := pyRound ((b : ℚ)/255 * 100) with hz
  have hzb := pyRound_sub_le ((b : ℚ)/255 * 100)
  rw [← hz] at hzb
  obtain ⟨hzb1, hzb2⟩ := abs_le.mp hzb
  have hb2Q : (2 : ℚ) ≤ (b : ℚ) := by exact_mod_cast hb2
  have hb255Q : (b : ℚ) ≤ 255 := by exact_mod_cast hb255
  have hzpos : 0 < z := by
    have hQ : (0 : ℚ) < (z : ℚ) := by linarith
    exact_mod_cast hQ
  have hvne : ((z : ℚ)/100) ≠ 0 := by
    have hQ : (0 : ℚ) < (z : ℚ) := by exact_mod_cast hzpos
    exact (div_pos hQ (by norm_num)).ne'
  have hbr : (SN2Light.handle_state_update s (.num ((z : ℚ)/100))).brightness
      = min 255 (max 0 (pyRound ((z : ℚ)/100 * 255))) := by
    simp [SN2Light.handle_state_update, hvne]
  rw [hbr]
  set w : ℤ := pyRound ((z : ℚ)/100 * 255) with hw
  have hwb := pyRound_sub_le ((z : ℚ)/100 * 255)
  rw [← hw] at hwb
  obtain ⟨hwb1, hwb2⟩ := abs_le.mp hwb
  have hexp : (z : ℚ)/100 * 255
      = (b : ℚ) + ((z : ℚ) - (b : ℚ)/255 * 100) * (255/100) := by
    ring
  have hd1 : (b : ℚ) - 51/40 ≤ (z : ℚ)/100 * 255 := by
    rw [hexp]; nlinarith
  have hd2 : (z : ℚ)/100 * 255 ≤ (b : ℚ) + 51/40 := by
    rw [hexp]; nlinarith
  have hwlb : (b : ℚ) - 71/40 ≤ (w : ℚ) := by linarith
  have hwub : (w : ℚ) ≤ (b : ℚ) + 71/40 := by linarith
  have hw1 : 1 ≤ w := by
    have hQ : (0 : ℚ) < (w : ℚ) := by linarith
    have : (0 : ℤ) < w := by exact_mod_cast hQ
    omega
  have hw256 : w ≤ 256 := by
    have hQ : (w : ℚ) < 257 := by linarith
    have : w < 257 := by exact_mod_cast hQ
    omega
  rcases le_or_lt w 255 with hle | hgt
  · rw [show min 255 (max 0 w) = w by omega, abs_le]
    constructor
    · have hZ : (-2 : ℚ) ≤ ((w - b : ℤ) : ℚ) := by push_cast; linarith
      exact_mod_cast hZ
    · have hZ : ((w - b : ℤ) : ℚ) ≤ 2 := by push_cast; linarith
      exact_mod_cast hZ
  · have hw256' : w = 256 := by omega
    have hb255' : b = 255 := by
      have hq : (254 : ℚ) < (b : ℚ) := by
        rw [hw256'] at hwub
        push_cast at hwub
        linarith
      have : (254 : ℤ) < b := by exact_mod_cast hq
      omega
    rw [show min 255 (max 0 w) = 255 by omega, hb255']
    norm_num

/-- C8 counterexample: the parenthetical generalization ("the
composition of encode and decode is the identity on 0-255 up to the
2-decimal rounding error") is false at brightness 1: `turn_on` with
brightness 1 encodes the value `round(1/255, 2) = 0`, and decoding `0`
turns the light OFF leaving brightness at its previous value (here the
initial 255), nowhere near 1. -/
theorem C8_brightness_one_lost :
    (SN2Light.async_turn_on_command (some 1)).value = 0
    ∧ (SN2Light.handle_state_update (SN2Light.init false)
        (.num (SN2Light.async_turn_on_command (some 1)).value))
      = { is_on := false, brightness := 255, available := false,
          notify := 1 } := by
  have hval : (SN2Light.async_turn_on_command (some 1)).value = 0 := by
    rw [show (SN2Light.async_turn_on_command (some 1)).value
        = (pyRound (((1 : ℤ) : ℚ)/255 * 100) : ℚ)/100 from rfl]
    rw [show (((1 : ℤ) : ℚ)/255 * 100) = (20 : ℚ)/51 by norm_num]
    rw [pyRound_20_51]
    norm_num
  refine ⟨hval, ?_⟩
  rw [hval]
  simp [SN2Light.handle_state_update, SN2Light.init]

/-- C8 amended: encoding `turn_on(brightness=128)` as
`round(128/255, 2) = 0.5` and decoding it through the light decoder
yields exactly 128 (and turns the light on); and for every brightness
`b` with `2 ≤ b ≤ 255`, from any entity state, the encode/decode
composition lands within 2 of `b`.  (For `b ∈ {0, 1}` the encoded value
rounds to 0, which decodes as off with brightness unchanged.) -/
theorem C8_round_trip :
    ((SN2Light.handle_state_update (SN2Light.init false)
        (.num (SN2Light.async_turn_on_command (some 128)).value)).brightness
      = 128
    ∧ (SN2Light.handle_state_update (SN2Light.init false)
        (.num (SN2Light.async_turn_on_command (some 128)).value)).is_on
      = true)
    ∧ (∀ (s : LightState) (b : ℤ), 2 ≤ b → b ≤ 255 →
        |(SN2Light.handle_state_update s
            (.num (SN2Light.async_turn_on_command (some b)).value)).brightness
          - b| ≤ 2) := by
  have hval : (SN2Light.async_turn_on_command (some 128)).value = 1/2 := by
    rw [show (SN2Light.async_turn_on_command (some 128)).value
        = (pyRound (((128 : ℤ) : ℚ)/255 * 100) : ℚ)/100 from rfl]
    rw [show (((128 : ℤ) : ℚ)/255 * 100) = (2560 : ℚ)/51 by norm_num]
    rw [pyRound_2560_51]
    norm_num
  have hne : (1/2 : ℚ) ≠ 0 := by norm_num
  refine ⟨⟨?_, ?_⟩, fun s b hb2 hb255 => round_trip_close b hb2 hb255 s⟩
  · rw [hval]
    simp only [SN2Light.handle_state_update, SN2Light.init, hne,
      if_neg hne]
    rw [show (1/2 : ℚ) * 255 = 255/2 by norm_num, pyRound_255_2]
    rfl
  · rw [hval]
    simp [SN2Light.handle_state_update, hne]

/-- C8 witness: the general tolerance clause applied at brightness 128
from the initial state. -/
theorem C8_round_trip_witness :
    ((2 : ℤ) ≤ 128 ∧ (128 : ℤ) ≤ 255)
    ∧ |(SN2Light.handle_state_update (SN2Light.init false)
        (.num (SN2Light.async_turn_on_command (some 128)).value)).brightness
      - 128| ≤ 2 :=
  ⟨⟨by decide, by decide⟩,
    C8_round_trip.2 (SN2Light.init false) 128 (by decide) (by decide)⟩

end SystemNexa2
